import Mathlib

/-!
Verification of the godns reconciliation engine against its sources.

The development shallowly embeds the Go sources:
pure string helpers become Lean functions on `String`; `net.IP` values become
byte lists with the Go standard library classification predicates; network
calls (DNSPod API, IP echo service, SMTP) become explicit oracle inputs, and
the per-cycle body of the dnspod `DomainLoop` becomes a function from the
cached state and the oracles to the successor state plus the list of calls it
issued.
-/

namespace Godns

/-- Go `strings.TrimRight(s, cutset)`: remove trailing characters of `cutset`. -/
def stringsTrimRight (s cutset : String) : String :=
  String.mk ((s.data.reverse.dropWhile (fun c => cutset.data.contains c)).reverse)

/-- Character-counting core of Go `strings.Count` for a one-character
substring (the only form the sources use, `strings.Count(ip, ":")`),
as `bytealg.CountString` does. -/
def countChar : List Char → Char → Nat
  | [], _ => 0
  | x :: xs, c => (if x = c then 1 else 0) + countChar xs c

/-- Go `strings.Count(s, sep)` for a single-character separator. -/
def stringsCount (s : String) (c : Char) : Nat :=
  countChar s.data c

/-- `isIPv4` from utils.go: `strings.Count(ip, ":") < 2`. -/
def isIPv4 (ip : String) : Bool :=
  decide (stringsCount ip ':' < 2)

/-- A Go `net.IP`: a byte slice, length 4 or 16 for well-formed addresses. -/
abbrev GoIP := List Nat

namespace GoIP

/-- Go `net.v4InV6Prefix`, the prefix of an IPv4-mapped IPv6 address. -/
def v4InV6Prefix : List Nat := [0, 0, 0, 0, 0, 0, 0, 0, 0, 0, 0xff, 0xff]

/-- Go `net.IPv4(a,b,c,d)`: the 16-byte form of an IPv4 address. -/
def mkIPv4 (a b c d : Nat) : GoIP := v4InV6Prefix ++ [a, b, c, d]

/-- Go `net.IPv4zero`. -/
def IPv4zero : GoIP := mkIPv4 0 0 0 0

/-- Go `net.IPv4bcast`. -/
def IPv4bcast : GoIP := mkIPv4 255 255 255 255

/-- Go `net.IPv6unspecified`. -/
def IPv6unspecified : GoIP := List.replicate 16 0

/-- Go `net.IPv6loopback`. -/
def IPv6loopback : GoIP := List.replicate 15 0 ++ [1]

/-- Go `IP.To4`: the 4-byte form when the address is IPv4 or IPv4-mapped. -/
def to4 (ip : GoIP) : Option GoIP :=
  if ip.length = 4 then some ip
  else if ip.length = 16 && ip.take 12 == v4InV6Prefix then some (ip.drop 12)
  else none

/-- Go `IP.Equal`: equality up to the 4-byte/16-byte representation split. -/
def equal (ip x : GoIP) : Bool :=
  if ip.length = x.length then ip == x
  else if ip.length = 4 && x.length = 16 then
    x.take 12 == v4InV6Prefix && ip == x.drop 12
  else if ip.length = 16 && x.length = 4 then
    ip.take 12 == v4InV6Prefix && x == ip.drop 12
  else false

/-- Go `IP.IsUnspecified`. -/
def isUnspecified (ip : GoIP) : Bool :=
  equal ip IPv4zero || equal ip IPv6unspecified

/-- Go `IP.IsLoopback`. -/
def isLoopback (ip : GoIP) : Bool :=
  match to4 ip with
  | some p4 => p4.getD 0 0 == 127
  | none => equal ip IPv6loopback

/-- Go `IP.IsMulticast`. -/
def isMulticast (ip : GoIP) : Bool :=
  match to4 ip with
  | some p4 => Nat.land (p4.getD 0 0) 0xf0 == 0xe0
  | none => ip.length == 16 && ip.getD 0 0 == 0xff

/-- Go `IP.IsInterfaceLocalMulticast`. -/
def isInterfaceLocalMulticast (ip : GoIP) : Bool :=
  ip.length == 16 && ip.getD 0 0 == 0xff && Nat.land (ip.getD 1 0) 0x0f == 0x01

/-- Go `IP.IsLinkLocalMulticast`. -/
def isLinkLocalMulticast (ip : GoIP) : Bool :=
  match to4 ip with
  | some p4 => p4.getD 0 0 == 224 && p4.getD 1 0 == 0 && p4.getD 2 0 == 0
  | none => ip.length == 16 && ip.getD 0 0 == 0xff && Nat.land (ip.getD 1 0) 0x0f == 0x02

/-- Go `IP.IsLinkLocalUnicast`. -/
def isLinkLocalUnicast (ip : GoIP) : Bool :=
  match to4 ip with
  | some p4 => p4.getD 0 0 == 169 && p4.getD 1 0 == 254
  | none => ip.length == 16 && ip.getD 0 0 == 0xfe && Nat.land (ip.getD 1 0) 0xc0 == 0x80

/-- Go `IP.IsGlobalUnicast`: note it also rejects the IPv4 broadcast address
and byte lengths other than 4 and 16. -/
def isGlobalUnicast (ip : GoIP) : Bool :=
  (ip.length == 4 || ip.length == 16) &&
  !equal ip IPv4bcast &&
  !isUnspecified ip &&
  !isLoopback ip &&
  !isMulticast ip &&
  !isLinkLocalUnicast ip

/-- Go `uitoa`, decimal rendering of a byte. -/
def uitoa (n : Nat) : String := Nat.repr n

/-- One 16-bit group in lowercase hex without leading zeros (Go `appendHex`). -/
def hexStr (n : Nat) : String := String.mk (Nat.toDigits 16 n)

/-- One byte as exactly two lowercase hex digits (Go `hexString`, per byte). -/
def hexByte (n : Nat) : String :=
  String.mk [Nat.digitChar (n / 16 % 16), Nat.digitChar (n % 16)]

/-- The 16-bit groups of a 16-byte address: `uint32(p[i])<<8 | uint32(p[i+1])`. -/
def groups16 : List Nat → List Nat
  | a :: b :: rest => (a * 256 + b) :: groups16 rest
  | _ => []

/-- Length of the leading run of zero groups. -/
def zeroRunLen : List Nat → Nat
  | [] => 0
  | g :: gs => if g = 0 then zeroRunLen gs + 1 else 0

/-- Scan of Go `IP.String`-s zero-run search: keeps the first strictly
longest run of zero groups, as the Go loop with its strict `>` update does. -/
def bestRunAux : List Nat → Nat → Option (Nat × Nat) → Option (Nat × Nat)
  | [], _, best => best
  | g :: gs, i, best =>
    let best' :=
      if g = 0 then
        let r := 1 + zeroRunLen gs
        match best with
        | none => some (i, r)
        | some p => if r > p.2 then some (i, r) else best
      else best
    bestRunAux gs (i + 1) best'

/-- The `::`-compressed run chosen by Go `IP.String`: the first longest run of
zero groups, only when it spans at least two groups (`e1-e0 <= 2` in bytes
cancels a one-group run). -/
def bestZeroRun (gs : List Nat) : Option (Nat × Nat) :=
  match bestRunAux gs 0 none with
  | some p => if 2 ≤ p.2 then some p else none
  | none => none

/-- The IPv6 branch of Go `IP.String`: hex groups joined by `:` with the best
zero run compressed to `::`. -/
def ipv6String (ip : GoIP) : String :=
  let gs := groups16 ip
  match bestZeroRun gs with
  | none => String.intercalate ":" (gs.map hexStr)
  | some p =>
    String.intercalate ":" ((gs.take p.1).map hexStr) ++ "::" ++
      String.intercalate ":" ((gs.drop (p.1 + p.2)).map hexStr)

/-- Go `IP.String`: dotted quad for (mapped) IPv4, `?`-prefixed hex dump for
invalid lengths, RFC 5952 text for IPv6. -/
def ipString (ip : GoIP) : String :=
  if ip.length = 0 then "<nil>"
  else
    match to4 ip with
    | some p4 => String.intercalate "." (p4.map uitoa)
    | none =>
      if ip.length ≠ 16 then "?" ++ String.join (ip.map hexByte)
      else ipv6String ip

end GoIP

/-- A value of Go `net.Addr` as `GetIPFromInterface` switches on it: an
`*net.IPNet`, an `*net.IPAddr` (each possibly holding a nil IP), or any other
implementation, which leaves the local `ip` variable nil. -/
inductive GoAddr where
  | ipNet (ip : Option GoIP)
  | ipAddr (ip : Option GoIP)
  | other

/-- The `switch v := addr.(type)` extraction at the top of the address loop. -/
def addrIP : GoAddr → Option GoIP
  | .ipNet ip => ip
  | .ipAddr ip => ip
  | .other => none

/-- The address loop of `GetIPFromInterface` (utils.go), over the addresses
the OS reports for the configured interface. The Go error message reads
"can" + apostrophe + "t get a vaild address from " (typo included); the
apostrophe is elided here. -/
def GetIPFromInterface (ifaceName : String) : List GoAddr → Except String String
  | [] => Except.error ("cant get a vaild address from " ++ ifaceName)
  | a :: rest =>
    match addrIP a with
    | none => GetIPFromInterface ifaceName rest
    | some ip =>
      if !(GoIP.isGlobalUnicast ip &&
            !(GoIP.isUnspecified ip || GoIP.isMulticast ip || GoIP.isLoopback ip ||
              GoIP.isLinkLocalUnicast ip || GoIP.isLinkLocalMulticast ip ||
              GoIP.isInterfaceLocalMulticast ip)) then
        GetIPFromInterface ifaceName rest
      else if !(isIPv4 (GoIP.ipString ip)) then
        GetIPFromInterface ifaceName rest
      else
        Except.ok (GoIP.ipString ip)

/-- The exact per-address condition under which the loop of
`GetIPFromInterface` returns an address instead of skipping it. -/
def codePasses (ip : GoIP) : Bool :=
  (GoIP.isGlobalUnicast ip &&
    !(GoIP.isUnspecified ip || GoIP.isMulticast ip || GoIP.isLoopback ip ||
      GoIP.isLinkLocalUnicast ip || GoIP.isLinkLocalMulticast ip ||
      GoIP.isInterfaceLocalMulticast ip)) &&
  isIPv4 (GoIP.ipString ip)

/-- The qualifying filter exactly as the specification words it: skip
addresses that are unspecified, multicast, loopback, or link-local
(unicast or multicast), and skip any non-IPv4 address; used only to compare
the specification against `codePasses`. -/
def specQualifies (ip : GoIP) : Bool :=
  !(GoIP.isUnspecified ip || GoIP.isMulticast ip || GoIP.isLoopback ip ||
    GoIP.isLinkLocalUnicast ip || GoIP.isLinkLocalMulticast ip) &&
  isIPv4 (GoIP.ipString ip)

/-- `GetCurrentIP` (utils.go), with its two network probes passed in as
oracles (`online` is the result of `GetIPOnline`, `iface` the result of
`GetIPFromInterface`). The returned pair mirrors the Go `(string, error)`
pair, `none` standing for a nil error. The `var err error` declared at the
top of the Go function is shadowed by the `ip, err := ...` short declarations
inside both branches, so the final `return "", err` always returns a nil
error; the model reproduces that. -/
def GetCurrentIP (ipUrl ipInterface : String) (online iface : Except String String) :
    String × Option String :=
  let fromInterface : String × Option String :=
    if ipInterface ≠ "" then
      match iface with
      | Except.ok ip => (ip, none)
      | Except.error _ => ("", none)
    else ("", none)
  if ipUrl ≠ "" then
    match online with
    | Except.ok ip => (ip, none)
    | Except.error _ => fromInterface
  else fromInterface

/-- `PanicMax` (utils.go). -/
def PanicMax : Nat := 5

/-- Outcome of `Handler.PostData` on `/Domain.List` as `GetDomain` consumes
it: a transport failure, a JSON parse failure, or a parsed body with a status
code and the `domains` array (each entry a name plus its `id` field, `none`
when the id is not a `json.Number`). -/
inductive PostResult where
  | fail
  | badJson
  | ok (statusCode : String) (domains : List (String × Option Int))
deriving DecidableEq

/-- `Handler.GetDomain` (dnspod_handler.go): `-1` on transport or parse
failure; otherwise the id of the first entry named `name` when the status
code is "1", with `ret` left at its zero value in every other case. -/
def GetDomain (name : String) (resp : PostResult) : Int :=
  match resp with
  | .fail => -1
  | .badJson => -1
  | .ok code domains =>
    if code = "1" then
      match domains.find? (fun d => d.1 == name) with
      | some (_, some id) => id
      | some (_, none) => 0
      | none => 0
    else 0

/-- The query values `GetDomain` posts to `/Domain.List`. -/
def domainListValues : List (String × String) :=
  [("type", "all"), ("offset", "0"), ("length", "20")]

/-- One provider or notifier call issued by a dnspod `DomainLoop` cycle,
with the payload the code passes. `updateIPCall` records whether the
`/Record.Modify` round-trip succeeded (observable only in the logs:
`UpdateIP` returns nothing). `notifyCall` records the `SendNotify` error. -/
inductive Event where
  | getDomainCall
  | getSubDomainCall (sub : String)
  | updateIPCall (sub ip : String) (succeeded : Bool)
  | notifyCall (target ip : String) (result : Option String)
deriving DecidableEq

/-- The environment one dnspod `DomainLoop` cycle runs against: the
`/Domain.List` response, the `GetCurrentIP` outcome, and per-subdomain the
`GetSubDomain` pair `(subDomainID, ip)`, whether `UpdateIP` succeeds, and the
`SendNotify` error. -/
structure Oracles where
  domainList : PostResult
  currentIPRes : Except String String
  subRes : String → String × String
  updateOk : String → Bool
  notifyErr : String → Option String

/-- A `Domain` from settings.go. -/
structure DomainCfg where
  domainName : String
  subDomains : List String

/-- What one cycle of the dnspod `DomainLoop` leaves behind: the value of the
`lastIP` cell, the calls issued, whether the cycle reached the sleep at the
bottom of the loop (the `continue` paths do not), and whether it took the
"IP is the same as cached one. Skip update." branch. -/
structure CycleResult where
  newLastIP : String
  events : List Event
  sleeps : Bool
  skippedByCache : Bool
deriving DecidableEq

/-- The per-subdomain body of the dnspod `DomainLoop` (lines 68-93):
`GetSubDomain`, skip when unconfigured, then `UpdateIP` plus optional
`SendNotify` when the trimmed record value differs from the current IP. -/
def processSubDomain (notifyEnabled : Bool) (domainName currentIP : String)
    (o : Oracles) (sub : String) : List Event :=
  let r := o.subRes sub
  Event.getSubDomainCall sub ::
    (if r.1 = "" ∨ r.2 = "" then []
     else if 0 < r.2.length ∧ stringsTrimRight currentIP "\n" ≠ stringsTrimRight r.2 "\n" then
       Event.updateIPCall sub currentIP (o.updateOk sub) ::
         (if notifyEnabled then
            [Event.notifyCall (sub ++ "." ++ domainName) currentIP (o.notifyErr sub)]
          else [])
     else [])

/-- The `for _, subDomain := range domain.SubDomains` loop. -/
def processSubDomains (notifyEnabled : Bool) (domainName currentIP : String)
    (o : Oracles) : List String → List Event
  | [] => []
  | s :: rest =>
    processSubDomain notifyEnabled domainName currentIP o s ++
      processSubDomains notifyEnabled domainName currentIP o rest

/-- One iteration of the dnspod `Handler.DomainLoop` `for` body
(dnspod_handler.go lines 46-98): call `GetDomain`, `continue` on `-1`;
resolve the current IP, `continue` on error; skip everything when it equals
the cached `lastIP`; otherwise overwrite `lastIP` and walk the subdomains. -/
def domainCycle (notifyEnabled : Bool) (dom : DomainCfg) (lastIP : String)
    (o : Oracles) : CycleResult :=
  let domainID := GetDomain dom.domainName o.domainList
  if domainID = -1 then ⟨lastIP, [Event.getDomainCall], false, false⟩
  else
    match o.currentIPRes with
    | Except.error _ => ⟨lastIP, [Event.getDomainCall], false, false⟩
    | Except.ok currentIP =>
      if currentIP = lastIP then ⟨lastIP, [Event.getDomainCall], true, true⟩
      else
        ⟨currentIP,
         Event.getDomainCall ::
           processSubDomains notifyEnabled dom.domainName currentIP o dom.subDomains,
         true, false⟩

/-- Calls that hit the DNSPod API (`/Domain.List`, `/Record.List`,
`/Record.Modify`); `SendNotify` goes to SMTP, not to the provider. -/
def isProviderCall : Event → Bool
  | .getDomainCall => true
  | .getSubDomainCall _ => true
  | .updateIPCall _ _ _ => true
  | .notifyCall _ _ _ => false

/-- Number of provider API calls in a cycle trace. -/
def providerCallCount (evs : List Event) : Nat :=
  (evs.filter isProviderCall).length

/-- Whether an event is a `SendNotify` call. -/
def isNotifyCall : Event → Bool
  | .notifyCall _ _ _ => true
  | _ => false

/-- Whether an event is an `UpdateIP` call. -/
def isUpdateCall : Event → Bool
  | .updateIPCall _ _ _ => true
  | _ => false

/-- Whether an event is an `UpdateIP` call whose round-trip succeeded. -/
def isSuccessfulUpdate : Event → Bool
  | .updateIPCall _ _ ok => ok
  | _ => false

/-- A `SendNotify` call occurs in the trace. -/
def hasNotify (evs : List Event) : Bool := evs.any isNotifyCall

/-- An `UpdateIP` call occurs in the trace. -/
def hasUpdate (evs : List Event) : Bool := evs.any isUpdateCall

/-- Modelled from the spec: the Supervisor restart accounting of section 4.5
(the supervisor entry point itself is not among the given sources; `PanicMax`
and the panic-recover emission of the FailureSignal are). On a FailureSignal
for a domain: increment that domain's counter, and relaunch exactly when the
new counter is still below `PanicMax`. -/
def superviseStep (counters : String → Nat) (failed : String) :
    (String → Nat) × Bool :=
  let c := counters failed + 1
  (fun d => if d = failed then c else counters d, decide (c < PanicMax))

/-- Modelled from the spec: the relaunch tally of section 4.5, recursing on
the remaining budget `b = PanicMax - c` so the recursion is structural. -/
def panickyRelaunchesGo : Nat → Nat → Nat
  | 0, _ => 0
  | b + 1, c => if c + 1 < PanicMax then panickyRelaunchesGo b (c + 1) + 1 else 0

/-- Modelled from the spec: the number of relaunches the Supervisor of
section 4.5 grants a domain whose loop panics deterministically on every
cycle, starting from failure counter `c`: each FailureSignal increments the
counter and relaunches only while the counter stays below `PanicMax`. -/
def panickyRelaunches (c : Nat) : Nat :=
  panickyRelaunchesGo (PanicMax - c) c

/-- A cycle environment whose resolved IP equals the cached one. -/
def exOracleUnchanged : Oracles :=
  ⟨PostResult.ok "1" [("example.com", some 7)], Except.ok "1.2.3.4",
   fun _ => ("", ""), fun _ => true, fun _ => none⟩

/-- A cycle environment where the record mismatches and `UpdateIP` fails. -/
def exOracleFailedUpdate : Oracles :=
  ⟨PostResult.ok "1" [("example.com", some 7)], Except.ok "2.2.2.2",
   fun _ => ("100", "9.9.9.9"), fun _ => false, fun _ => none⟩

/-- A cycle environment where the resolved IP differs from the cached one
only by a trailing newline, and matches the remote record up to trimming. -/
def exOracleNewline : Oracles :=
  ⟨PostResult.ok "1" [("example.com", some 7)], Except.ok "1.2.3.4\n",
   fun _ => ("100", "1.2.3.4"), fun _ => true, fun _ => none⟩

/-- A cycle environment whose remote record equals the current IP up to a
trailing newline. -/
def wOracleTrim : Oracles :=
  ⟨PostResult.ok "1" [("example.com", some 7)], Except.ok "2.2.2.2",
   fun _ => ("100", "2.2.2.2\n"), fun _ => true, fun _ => none⟩

/-- A cycle environment with a mismatching record and a failing `UpdateIP`,
used with notification enabled. -/
def exOracleNotify : Oracles :=
  ⟨PostResult.ok "1" [("example.com", some 7)], Except.ok "2.2.2.2",
   fun _ => ("100", "9.9.9.9"), fun _ => false, fun _ => none⟩

/-- A cycle environment whose `/Domain.List` response succeeds with an empty
domain list. -/
def wOracleEmptyDomains : Oracles :=
  ⟨PostResult.ok "1" [], Except.ok "5.6.7.8",
   fun _ => ("", ""), fun _ => true, fun _ => none⟩

/-- An OS address report: loopback, link-local, a non-IP address, a
link-local multicast group, and two qualifying IPv4 addresses in order. -/
def demoAddrs : List GoAddr :=
  [GoAddr.ipNet (some [127, 0, 0, 1]), GoAddr.ipAddr (some [169, 254, 1, 1]),
   GoAddr.other, GoAddr.ipNet (some [224, 0, 0, 5]),
   GoAddr.ipNet (some [192, 168, 1, 5]), GoAddr.ipNet (some [10, 0, 0, 1])]

/-- `countChar` agrees with `List.count`. -/
theorem countChar_eq_count (l : List Char) (c : Char) :
    countChar l c = List.count c l := by
  induction l with
  | nil => simp [countChar]
  | cons x xs ih =>
    by_cases h : x = c
    · simp [countChar, List.count_cons, h, ih]
      omega
    · simp [countChar, List.count_cons, h, ih]

/-- A cycle whose `/Domain.List` outcome yields `-1` takes the first
`continue`. -/
theorem domainCycle_neg1 (ne : Bool) (dom : DomainCfg) (lastIP : String)
    (o : Oracles) (hdom : GetDomain dom.domainName o.domainList = -1) :
    domainCycle ne dom lastIP o = ⟨lastIP, [Event.getDomainCall], false, false⟩ := by
  simp [domainCycle, hdom]

/-- A cycle whose IP resolution fails takes the second `continue`. -/
theorem domainCycle_err (ne : Bool) (dom : DomainCfg) (lastIP e : String)
    (o : Oracles) (herr : o.currentIPRes = Except.error e) :
    domainCycle ne dom lastIP o = ⟨lastIP, [Event.getDomainCall], false, false⟩ := by
  simp only [domainCycle, herr]
  split <;> rfl

/-- A cycle with a usable domain id and a resolved IP either skips on the
cache hit or overwrites `lastIP` and walks the subdomains. -/
theorem domainCycle_ok (ne : Bool) (dom : DomainCfg) (lastIP c : String)
    (o : Oracles) (hdom : GetDomain dom.domainName o.domainList ≠ -1)
    (hip : o.currentIPRes = Except.ok c) :
    domainCycle ne dom lastIP o =
      if c = lastIP then ⟨lastIP, [Event.getDomainCall], true, true⟩
      else
        ⟨c, Event.getDomainCall ::
              processSubDomains ne dom.domainName c o dom.subDomains,
         true, false⟩ := by
  simp [domainCycle, hdom, hip]

/-- The address loop of `GetIPFromInterface` returns the rendering of the
first reported address that passes the exact per-address condition of the
code, and the loop error otherwise. -/
theorem getIPFromInterface_eq_find (ifn : String) (addrs : List GoAddr) :
    GetIPFromInterface ifn addrs =
      (match (addrs.filterMap addrIP).find? codePasses with
       | some ip => Except.ok (GoIP.ipString ip)
       | none => Except.error ("cant get a vaild address from " ++ ifn)) := by
  induction addrs with
  | nil => rfl
  | cons a rest ih =>
    cases ha : addrIP a with
    | none =>
      have hfm : List.filterMap addrIP (a :: rest) = List.filterMap addrIP rest := by
        simp [List.filterMap_cons, ha]
      simp only [GetIPFromInterface, ha]
      rw [hfm]
      exact ih
    | some ip =>
      have hfm : List.filterMap addrIP (a :: rest) = ip :: List.filterMap addrIP rest := by
        simp [List.filterMap_cons, ha]
      simp only [GetIPFromInterface, ha]
      rw [hfm]
      cases hc : codePasses ip with
      | true =>
        have hsplit := hc
        simp only [codePasses, Bool.and_eq_true] at hsplit
        rw [List.find?_cons_of_pos _ hc]
        simp [hsplit.1, hsplit.2]
      | false =>
        rw [List.find?_cons_of_neg _ (by simp [hc])]
        cases hA : (GoIP.isGlobalUnicast ip &&
            !(GoIP.isUnspecified ip || GoIP.isMulticast ip || GoIP.isLoopback ip ||
              GoIP.isLinkLocalUnicast ip || GoIP.isLinkLocalMulticast ip ||
              GoIP.isInterfaceLocalMulticast ip)) with
        | false => simp [hA, ih]
        | true =>
          have hB : isIPv4 (GoIP.ipString ip) = false := by
            have hsplit := hc
            simp only [codePasses, hA, Bool.true_and] at hsplit
            exact hsplit
          simp [hA, hB, ih]

/-- C5 (counterexample): the IPv4 broadcast address 255.255.255.255 is not
unspecified, multicast, loopback, link-local, or non-IPv4 — it passes every
filter the claim lists — yet `GetIPFromInterface` skips it (it fails
`IsGlobalUnicast`) and returns the loop error instead of returning it. -/
theorem broadcast_skipped_despite_spec_filter :
    specQualifies [255, 255, 255, 255] = true ∧
    GoIP.ipString [255, 255, 255, 255] = "255.255.255.255" ∧
    GetIPFromInterface "eth0" [GoAddr.ipNet (some [255, 255, 255, 255])] =
      Except.error "cant get a vaild address from eth0" :=
  ⟨by decide, rfl, rfl⟩

/-- C5 (amended): `GetIPFromInterface` returns the rendering of the first
OS-reported address passing the code's filter — global unicast (which also
rejects the IPv4 broadcast address and malformed lengths) and IPv4 — and any
address passing that filter is not unspecified, multicast, loopback,
link-local (unicast or multicast), interface-local multicast, or non-IPv4. -/
theorem interface_first_match_policy (ifn : String) (addrs : List GoAddr)
    (ip : GoIP) (hip : codePasses ip = true) :
    (GetIPFromInterface ifn addrs =
      (match (addrs.filterMap addrIP).find? codePasses with
       | some j => Except.ok (GoIP.ipString j)
       | none => Except.error ("cant get a vaild address from " ++ ifn))) ∧
    GoIP.isUnspecified ip = false ∧ GoIP.isMulticast ip = false ∧
    GoIP.isLoopback ip = false ∧ GoIP.isLinkLocalUnicast ip = false ∧
    GoIP.isLinkLocalMulticast ip = false ∧
    GoIP.isInterfaceLocalMulticast ip = false ∧
    isIPv4 (GoIP.ipString ip) = true := by
  refine ⟨getIPFromInterface_eq_find ifn addrs, ?_⟩
  revert hip
  unfold codePasses
  cases GoIP.isUnspecified ip <;> cases GoIP.isMulticast ip <;>
    cases GoIP.isLoopback ip <;> cases GoIP.isLinkLocalUnicast ip <;>
    cases GoIP.isLinkLocalMulticast ip <;>
    cases GoIP.isInterfaceLocalMulticast ip <;>
    cases isIPv4 (GoIP.ipString ip) <;> simp

/-- C5 (witness): on a report with loopback, link-local, non-IP, and
link-local-multicast entries before two qualifying addresses, the first
qualifying address is returned. -/
theorem interface_first_match_policy_witness :
    GetIPFromInterface "eth0" demoAddrs = Except.ok "192.168.1.5" ∧
    GoIP.isLoopback [192, 168, 1, 5] = false := by
  have h := interface_first_match_policy "eth0" demoAddrs [192, 168, 1, 5] (by decide)
  exact ⟨h.1.trans (by rfl), h.2.2.2.1⟩

/-- C10: `isIPv4` accepts a string exactly when it has fewer than two colon
characters, so strings that are not dotted-quad IPv4 addresses at all, such
as "banana" or "1:2", pass the final IPv4 filter of the address loop, while
IPv6 text like "fe80::1" does not. -/
theorem isIPv4_colon_threshold :
    (∀ s : String, isIPv4 s = true ↔ List.count ':' s.data < 2) ∧
    isIPv4 "banana" = true ∧ isIPv4 "1:2" = true ∧ isIPv4 "fe80::1" = false := by
  refine ⟨fun s => ?_, by decide, by decide, by decide⟩
  simp [isIPv4, stringsCount, countChar_eq_count]

/-- C3 (code bug evaluation): with no source configured, and likewise when
both configured sources fail, `GetCurrentIP` returns an empty IP together
with a nil error — the outer `err` of the Go function is shadowed by both
inner `:=` declarations, so no `NoAddressAvailable`-style error is ever
produced. -/
theorem getCurrentIP_nil_error_when_no_source :
    GetCurrentIP "" "" (Except.error "no url") (Except.error "no iface") =
      ("", none) ∧
    GetCurrentIP "http://myip.example" "eth0" (Except.error "online down")
      (Except.error "iface down") = ("", none) :=
  ⟨rfl, rfl⟩

/-- C6: with both sources configured, the online result wins when it
succeeds, and when it fails the interface result is returned with a nil
error — the online failure is never propagated. -/
theorem online_first_interface_fallback (u i a e ip2 : String)
    (r : Except String String) (hu : u ≠ "") (hi : i ≠ "") :
    GetCurrentIP u i (Except.ok a) r = (a, none) ∧
    GetCurrentIP u i (Except.error e) (Except.ok ip2) = (ip2, none) := by
  constructor <;> simp [GetCurrentIP, hu, hi]

/-- C6 (witness): concrete evaluation of the fallback policy. -/
theorem online_first_interface_fallback_witness :
    GetCurrentIP "http://myip.example" "eth0" (Except.ok "1.2.3.4")
      (Except.error "down") = ("1.2.3.4", none) ∧
    GetCurrentIP "http://myip.example" "eth0" (Except.error "down")
      (Except.ok "10.0.0.7") = ("10.0.0.7", none) :=
  online_first_interface_fallback "http://myip.example" "eth0" "1.2.3.4"
    "down" "10.0.0.7" (Except.error "down") (by decide) (by decide)

/-- C1 (counterexample): a dnspod cycle whose resolved IP equals the cached
`lastIP` (the skip branch is taken) still issues one provider API call — the
`GetDomain` lookup happens before the cached comparison — so the number of
provider calls in the cycle is not zero. -/
theorem unchanged_cycle_still_calls_provider :
    (domainCycle false ⟨"example.com", ["www"]⟩ "1.2.3.4"
        exOracleUnchanged).skippedByCache = true ∧
    providerCallCount (domainCycle false ⟨"example.com", ["www"]⟩ "1.2.3.4"
        exOracleUnchanged).events ≠ 0 := by decide

/-- C1 (amended): in a dnspod cycle whose resolved IP equals the cached
`lastIP`, no per-subdomain lookup (`Record.List`) or update
(`Record.Modify`) calls are issued; the trace is exactly the one
`Domain.List` lookup that precedes the comparison. -/
theorem unchanged_cycle_no_subdomain_calls (ne : Bool) (dom : DomainCfg)
    (lastIP : String) (o : Oracles)
    (hdom : GetDomain dom.domainName o.domainList ≠ -1)
    (hsame : o.currentIPRes = Except.ok lastIP) :
    (domainCycle ne dom lastIP o).events = [Event.getDomainCall] ∧
    providerCallCount (domainCycle ne dom lastIP o).events = 1 := by
  rw [domainCycle_ok ne dom lastIP lastIP o hdom hsame, if_pos rfl]
  exact ⟨rfl, rfl⟩

/-- C1 (witness): the amended statement at a concrete unchanged cycle. -/
theorem unchanged_cycle_no_subdomain_calls_witness :
    (domainCycle false ⟨"example.com", ["www"]⟩ "1.2.3.4"
        exOracleUnchanged).events = [Event.getDomainCall] ∧
    providerCallCount (domainCycle false ⟨"example.com", ["www"]⟩ "1.2.3.4"
        exOracleUnchanged).events = 1 :=
  unchanged_cycle_no_subdomain_calls false ⟨"example.com", ["www"]⟩ "1.2.3.4"
    exOracleUnchanged (by decide) rfl

/-- C2 (counterexample): a cycle that attempts an update which fails (no
successful update occurs in the trace) still overwrites `lastIP` with the
new IP — the assignment `lastIP = currentIP` precedes all provider calls. -/
theorem lastIP_overwritten_despite_failed_update :
    (domainCycle true ⟨"example.com", ["www"]⟩ "1.1.1.1"
        exOracleFailedUpdate).newLastIP = "2.2.2.2" ∧
    (domainCycle true ⟨"example.com", ["www"]⟩ "1.1.1.1"
        exOracleFailedUpdate).events.any isSuccessfulUpdate = false ∧
    hasUpdate (domainCycle true ⟨"example.com", ["www"]⟩ "1.1.1.1"
        exOracleFailedUpdate).events = true ∧
    ("2.2.2.2" : String) ≠ "1.1.1.1" := by decide

/-- C2 (amended): whenever the domain lookup is usable and IP resolution
succeeds, the cycle leaves `lastIP` equal to the newly resolved IP —
regardless of whether any provider update was attempted or succeeded — and
a cycle whose IP resolution fails leaves `lastIP` untouched. -/
theorem lastIP_overwrite_policy (ne : Bool) (dom : DomainCfg)
    (lastIP c e : String) (o o2 : Oracles)
    (hdom : GetDomain dom.domainName o.domainList ≠ -1)
    (hip : o.currentIPRes = Except.ok c)
    (herr : o2.currentIPRes = Except.error e) :
    (domainCycle ne dom lastIP o).newLastIP = c ∧
    (domainCycle ne dom lastIP o2).newLastIP = lastIP := by
  constructor
  · rw [domainCycle_ok ne dom lastIP c o hdom hip]
    split_ifs with h
    · exact h.symm
    · rfl
  · rw [domainCycle_err ne dom lastIP e o2 herr]

/-- C2 (witness): the amended statement at a concrete changed cycle with a
failing update and at a concrete failing resolution. -/
theorem lastIP_overwrite_policy_witness :
    (domainCycle true ⟨"example.com", ["www"]⟩ "1.1.1.1"
        exOracleFailedUpdate).newLastIP = "2.2.2.2" ∧
    (domainCycle true ⟨"example.com", ["www"]⟩ "1.1.1.1"
        ⟨PostResult.ok "1" [("example.com", some 7)], Except.error "no ip",
         fun _ => ("", ""), fun _ => true, fun _ => none⟩).newLastIP = "1.1.1.1" :=
  lastIP_overwrite_policy true ⟨"example.com", ["www"]⟩ "1.1.1.1" "2.2.2.2"
    "no ip" exOracleFailedUpdate
    ⟨PostResult.ok "1" [("example.com", some 7)], Except.error "no ip",
     fun _ => ("", ""), fun _ => true, fun _ => none⟩
    (by decide) rfl rfl

/-- C4 (counterexample): with a resolved IP differing from the cached
`lastIP` only by a trailing newline, the cycle does not take the cache-skip
branch — the cached comparison is exact string equality without trimming —
and it overwrites `lastIP` with the newline-carrying value, even though the
remote-record comparison (which does trim) attempts no update. -/
theorem cached_compare_no_trim :
    stringsTrimRight "1.2.3.4\n" "\n" = stringsTrimRight "1.2.3.4" "\n" ∧
    (domainCycle true ⟨"example.com", ["www"]⟩ "1.2.3.4"
        exOracleNewline).skippedByCache = false ∧
    (domainCycle true ⟨"example.com", ["www"]⟩ "1.2.3.4"
        exOracleNewline).newLastIP = "1.2.3.4\n" ∧
    hasUpdate (domainCycle true ⟨"example.com", ["www"]⟩ "1.2.3.4"
        exOracleNewline).events = false := by decide

/-- C4 (amended): the trailing-newline trimming applies only to the
remote-record-value comparison — when the current IP and the record value
agree after `TrimRight "\n"`, no update call is issued for that subdomain —
while the cached-lastIP comparison is exact string equality: the skip branch
is taken precisely when the resolved IP equals the cached value untrimmed. -/
theorem compare_trimming_policy (ne : Bool) (dn cip lastIP c : String)
    (o : Oracles) (s : String) (dom : DomainCfg)
    (htrim : stringsTrimRight cip "\n" = stringsTrimRight (o.subRes s).2 "\n")
    (hok : o.currentIPRes = Except.ok c) :
    (processSubDomain ne dn cip o s).any isUpdateCall = false ∧
    (domainCycle ne dom lastIP o).skippedByCache =
      ((GetDomain dom.domainName o.domainList != -1) && (c == lastIP)) := by
  constructor
  · have hcond : ¬(0 < (o.subRes s).2.length ∧
        stringsTrimRight cip "\n" ≠ stringsTrimRight (o.subRes s).2 "\n") :=
      fun hh => hh.2 htrim
    unfold processSubDomain
    simp [hcond, isUpdateCall]
  · by_cases hdom : GetDomain dom.domainName o.domainList = -1
    · rw [domainCycle_neg1 ne dom lastIP o hdom]
      simp [hdom]
    · rw [domainCycle_ok ne dom lastIP c o hdom hok]
      split_ifs with h
      · simp [hdom, h]
      · simp [hdom, h]

/-- C4 (witness): the amended statement at a concrete cycle whose record
value carries a trailing newline. -/
theorem compare_trimming_policy_witness :
    (processSubDomain true "example.com" "2.2.2.2" wOracleTrim "www").any
        isUpdateCall = false ∧
    (domainCycle true ⟨"example.com", ["www"]⟩ "9.9.9.9"
        wOracleTrim).skippedByCache =
      ((GetDomain "example.com" wOracleTrim.domainList != -1) &&
        ("2.2.2.2" == "9.9.9.9")) :=
  compare_trimming_policy true "example.com" "2.2.2.2" "9.9.9.9" "2.2.2.2"
    wOracleTrim "www" ⟨"example.com", ["www"]⟩ (by decide) rfl

/-- C8: modelled from the spec (section 4.5), a domain whose loop panics on
every cycle is relaunched 4 times — at most `PanicMax` — after which its
counter has reached `PanicMax` and every further FailureSignal for it is
answered without a relaunch, while a FailureSignal never touches a sibling
domain's counter. -/
theorem supervisor_bounded_restart (counters : String → Nat)
    (failed sib : String) (hsib : sib ≠ failed)
    (hmax : PanicMax ≤ counters failed) :
    panickyRelaunches 0 = 4 ∧
    panickyRelaunches 0 ≤ PanicMax ∧
    (∀ c, PanicMax ≤ c + 1 → panickyRelaunches c = 0) ∧
    (superviseStep counters failed).1 sib = counters sib ∧
    (superviseStep counters failed).2 = false := by
  refine ⟨by decide, by decide, ?_, ?_, ?_⟩
  · intro c h
    unfold panickyRelaunches
    cases hb : PanicMax - c with
    | zero => simp [panickyRelaunchesGo]
    | succ b => simp [panickyRelaunchesGo, Nat.not_lt_of_le h]
  · simp [superviseStep, hsib]
  · simp only [superviseStep, decide_eq_false_iff_not]
    omega

/-- C8 (witness): the bounded-restart statement at a concrete supervisor
state in which the failing domain has exhausted its budget. -/
theorem supervisor_bounded_restart_witness :
    panickyRelaunches 0 = 4 ∧
    panickyRelaunches 7 = 0 ∧
    (superviseStep (fun _ => 5) "failing.example").1 "healthy.example" = 5 ∧
    (superviseStep (fun _ => 5) "failing.example").2 = false := by
  have h := supervisor_bounded_restart (fun _ => 5) "failing.example"
    "healthy.example" (by decide) (by decide)
  exact ⟨h.1, h.2.2.1 7 (by decide), h.2.2.2.1, h.2.2.2.2⟩

/-- In one subdomain's trace, a notify call appears exactly when
notification is enabled and an update call appears. -/
theorem processSubDomain_notify_eq (ne : Bool) (dn cip : String) (o : Oracles)
    (s : String) :
    (processSubDomain ne dn cip o s).any isNotifyCall =
      (ne && (processSubDomain ne dn cip o s).any isUpdateCall) := by
  cases ne <;>
    · simp only [processSubDomain]
      split_ifs <;> first | rfl | (exfalso; simp_all)

/-- The notify/update correspondence lifts to the whole subdomain walk. -/
theorem processSubDomains_notify_eq (ne : Bool) (dn cip : String) (o : Oracles)
    (l : List String) :
    (processSubDomains ne dn cip o l).any isNotifyCall =
      (ne && (processSubDomains ne dn cip o l).any isUpdateCall) := by
  induction l with
  | nil => cases ne <;> simp [processSubDomains]
  | cons s rest ih =>
    simp only [processSubDomains, List.any_append,
      processSubDomain_notify_eq, ih]
    cases ne <;> simp

/-- One subdomain's update trace does not depend on the notifier outcome. -/
theorem processSubDomain_update_indep (ne : Bool) (dn cip : String)
    (dl : PostResult) (cr : Except String String) (sr : String → String × String)
    (uo : String → Bool) (nf f : String → Option String) (s : String) :
    (processSubDomain ne dn cip ⟨dl, cr, sr, uo, f⟩ s).any isUpdateCall =
      (processSubDomain ne dn cip ⟨dl, cr, sr, uo, nf⟩ s).any isUpdateCall := by
  cases ne <;>
    · simp only [processSubDomain]
      split_ifs <;> rfl

/-- The whole walk's update trace does not depend on the notifier outcome. -/
theorem processSubDomains_update_indep (ne : Bool) (dn cip : String)
    (dl : PostResult) (cr : Except String String) (sr : String → String × String)
    (uo : String → Bool) (nf f : String → Option String) (l : List String) :
    (processSubDomains ne dn cip ⟨dl, cr, sr, uo, f⟩ l).any isUpdateCall =
      (processSubDomains ne dn cip ⟨dl, cr, sr, uo, nf⟩ l).any isUpdateCall := by
  induction l with
  | nil => rfl
  | cons s rest ih =>
    simp only [processSubDomains, List.any_append, ih]
    rw [processSubDomain_update_indep ne dn cip dl cr sr uo nf f s]

/-- C7 (counterexample): with notification enabled, a cycle whose single
update call fails (no successful update in the trace) still invokes the
notifier — `UpdateIP` returns nothing, so the notification is not gated on
update success. -/
theorem notify_sent_despite_failed_update :
    hasNotify (domainCycle true ⟨"example.com", ["www"]⟩ "1.1.1.1"
        exOracleNotify).events = true ∧
    (domainCycle true ⟨"example.com", ["www"]⟩ "1.1.1.1"
        exOracleNotify).events.any isSuccessfulUpdate = false ∧
    hasUpdate (domainCycle true ⟨"example.com", ["www"]⟩ "1.1.1.1"
        exOracleNotify).events = true := by decide

/-- C7 (amended): in every dnspod cycle the notifier is invoked exactly when
notification is enabled and an update call is attempted (regardless of the
update's success, which `UpdateIP` does not report), and the notifier's
outcome never changes the cycle's resulting `lastIP`, its reaching of the
sleep, or its update trace — a notifier failure is only logged. -/
theorem notify_iff_update_attempt (ne : Bool) (dom : DomainCfg)
    (lastIP : String) (o : Oracles) (f : String → Option String) :
    hasNotify (domainCycle ne dom lastIP o).events =
      (ne && hasUpdate (domainCycle ne dom lastIP o).events) ∧
    (domainCycle ne dom lastIP { o with notifyErr := f }).newLastIP =
      (domainCycle ne dom lastIP o).newLastIP ∧
    (domainCycle ne dom lastIP { o with notifyErr := f }).sleeps =
      (domainCycle ne dom lastIP o).sleeps ∧
    hasUpdate (domainCycle ne dom lastIP { o with notifyErr := f }).events =
      hasUpdate (domainCycle ne dom lastIP o).events := by
  obtain ⟨dl, cr, sr, uo, nf⟩ := o
  by_cases hdom : GetDomain dom.domainName dl = -1
  · refine ⟨?_, ?_, ?_, ?_⟩ <;>
      simp [domainCycle, hdom, hasNotify, hasUpdate, isNotifyCall, isUpdateCall]
  · cases cr with
    | error e =>
      refine ⟨?_, ?_, ?_, ?_⟩ <;>
        simp [domainCycle, hdom, hasNotify, hasUpdate, isNotifyCall, isUpdateCall]
    | ok c =>
      by_cases hsame : c = lastIP
      · refine ⟨?_, ?_, ?_, ?_⟩ <;>
          simp [domainCycle, hdom, hsame, hasNotify, hasUpdate,
            isNotifyCall, isUpdateCall]
      · have hupd := processSubDomains_update_indep ne dom.domainName c dl
          (Except.ok c) sr uo nf f dom.subDomains
        refine ⟨?_, ?_, ?_, ?_⟩ <;>
          simp [domainCycle, hdom, hsame, hasNotify, hasUpdate, List.any_cons,
            isNotifyCall, isUpdateCall, processSubDomains_notify_eq, hupd]

/-- C9 (counterexample): a well-formed success response whose matching entry
carries id `-1` makes `GetDomain` return `-1` even though neither the HTTP
request nor the JSON parse failed. -/
theorem getDomain_negative_id_result :
    GetDomain "example.com" (PostResult.ok "1" [("example.com", some (-1))]) = -1 ∧
    PostResult.ok "1" [("example.com", some (-1))] ≠ PostResult.fail ∧
    PostResult.ok "1" [("example.com", some (-1))] ≠ PostResult.badJson := by
  decide

/-- C9 (amended): `GetDomain` returns `-1` on transport or parse failure;
on a parsed response it can return `-1` only when the first matching entry
itself carries id `-1` — in particular, a success response in which the
requested name is absent (the request caps the listing at 20 domains via its
`length=20` parameter) yields `0`, and a cycle whose domain id is `0` is not
treated as a failure: it proceeds to the sleep rather than the `continue`. -/
theorem getDomain_failure_signalling (name nm2 code code2 : String)
    (domains domains2 : List (String × Option Int)) (ne : Bool)
    (dom : DomainCfg) (lastIP c : String) (o : Oracles)
    (habsent : ∀ d ∈ domains, d.1 ≠ name)
    (hneg : GetDomain nm2 (PostResult.ok code2 domains2) = -1)
    (hzero : GetDomain dom.domainName o.domainList = 0)
    (hok : o.currentIPRes = Except.ok c) :
    GetDomain name PostResult.fail = -1 ∧
    GetDomain name PostResult.badJson = -1 ∧
    GetDomain name (PostResult.ok code domains) = 0 ∧
    (∃ d, domains2.find? (fun x => x.1 == nm2) = some d ∧ d.2 = some (-1)) ∧
    ("length", "20") ∈ domainListValues ∧
    (domainCycle ne dom lastIP o).sleeps = true := by
  refine ⟨rfl, rfl, ?_, ?_, ?_, ?_⟩
  · have hfind : domains.find? (fun x => x.1 == name) = none := by
      rw [List.find?_eq_none]
      intro d hd
      simp [habsent d hd]
    simp only [GetDomain]
    rw [hfind]
    split_ifs <;> rfl
  · simp only [GetDomain] at hneg
    by_cases hc : code2 = "1"
    · rw [if_pos hc] at hneg
      cases hfind : domains2.find? (fun x => x.1 == nm2) with
      | none => rw [hfind] at hneg; simp at hneg
      | some d =>
        obtain ⟨a, b⟩ := d
        cases b with
        | none => rw [hfind] at hneg; simp at hneg
        | some id =>
          rw [hfind] at hneg
          simp at hneg
          exact ⟨(a, some id), rfl, by simp [hneg]⟩
    · rw [if_neg hc] at hneg
      exact absurd hneg (by decide)
  · simp [domainListValues]
  · have hdom : GetDomain dom.domainName o.domainList ≠ -1 := by
      rw [hzero]; decide
    rw [domainCycle_ok ne dom lastIP c o hdom hok]
    split_ifs <;> rfl

/-- C9 (witness): the failure-signalling statement at concrete responses —
an absent name yields 0 and the cycle with domain id 0 reaches the sleep. -/
theorem getDomain_failure_signalling_witness :
    GetDomain "example.com" PostResult.fail = -1 ∧
    GetDomain "example.com" PostResult.badJson = -1 ∧
    GetDomain "example.com" (PostResult.ok "1" [("other.org", some 3)]) = 0 ∧
    (∃ d, [("w.example", some (-1 : Int))].find? (fun x => x.1 == "w.example") =
        some d ∧ d.2 = some (-1)) ∧
    ("length", "20") ∈ domainListValues ∧
    (domainCycle false ⟨"example.com", []⟩ "" wOracleEmptyDomains).sleeps = true :=
  getDomain_failure_signalling "example.com" "w.example" "1" "1"
    [("other.org", some 3)] [("w.example", some (-1))] false
    ⟨"example.com", []⟩ "" "5.6.7.8" wOracleEmptyDomains
    (by decide) (by decide) (by decide) rfl

end Godns
